import Mathlib

/-!
Verification of the Maestro servo-controller driver (`driver.py`).

The driver is shallowly embedded: the serial port is a `MState` record
holding an explicit trace of the byte strings written to the transport
and a queue of pending `read(1)` results, and every driver method
becomes a Lean function threading that state.  Python peculiarities
that matter to the claims are modelled exactly:

* `bytes(n)` applied to an `int` produces `n` zero bytes (Python 3);
* `bytearray` truthiness and `if speed:` truthiness (`None` and `0`
  are falsy);
* `ord` of a byte string raises `TypeError` unless its length is 1,
  modelled with `Except`;
* `Maestro.pololu_cmd` is a class attribute: a single mutable
  bytearray shared by every call, carried inside `MState`;
* the unbounded polling loop `wait_until_at_target` is given explicit
  fuel and returns `none` when the fuel runs out while the loop is
  still spinning.
-/

set_option maxRecDepth 4000

namespace Maestro

/-- Module-level protocol constants of `driver.py` (lines 32-41). -/
def _DEVICE : ℕ := 0x0c

def _SET_TARGET_CMD : ℕ := 0x84

def _SET_MULTIPLE_TARGET_CMD : ℕ := 0x9F

def _SET_SPEED_CMD : ℕ := 0x87

def _SET_ACCELERATION_CMD : ℕ := 0x89

def _SET_PWM_CMD : ℕ := 0x8A

def _GET_POSITION_CMD : ℕ := 0x90

def _GET_ERRORS_CMD : ℕ := 0xA1

def _GO_HOME_CMD : ℕ := 0xA2

def _INIT_CMD : ℕ := 0xAA

/-- Class constants (lines 48-52). -/
def HOME_PULSE : ℕ := 6000

def MAX_FROM_HOME : ℕ := 2000

/-- Python 3 `bytes(n)` for a non-negative `int` `n`: `n` zero bytes. -/
def bytesOfInt (n : ℕ) : List ℕ := List.replicate n 0

/-- An argument to `Maestro.write`: the driver passes either a plain
`int` or a `bytes`/`bytearray` object (line 112-115). -/
inductive Msg where
  | int (n : ℕ)
  | bytes (bs : List ℕ)
deriving Repr, DecidableEq

/-- The bytes `serial.write` receives for one `Msg` (lines 113 and 115):
an `int` goes through `bytes(message)`, a byte string is written as is. -/
def msgBytes : Msg → List ℕ
  | .int n => bytesOfInt n
  | .bytes bs => bs

/-- The observable state of one `Maestro` instance together with its
serial port.  `written` is the trace of byte strings handed to
`serial.write`; `reads` queues the results of successive
`self._commandPort.read(1)` calls (an entry `[]` is a timed-out, empty
read, and an exhausted queue also times out); `readsAttempted` counts
how many reads were issued; `pololu_cmd` is the CLASS-level bytearray
of line 53, which `get_moving_state` aliases and mutates. -/
structure MState where
  isOpen : Bool
  writable : Bool
  written : List (List ℕ)
  reads : List (List ℕ)
  readsAttempted : ℕ
  pololu_cmd : List ℕ
deriving Repr, DecidableEq

/-- A fresh instance on an open, writable port with a given queue of
pending read results; `pololu_cmd` still holds its initial class value
`bytearray([0xaa, _DEVICE])` (line 53). -/
def initState (reads : List (List ℕ)) : MState :=
  { isOpen := true, writable := true, written := [], reads := reads,
    readsAttempted := 0, pololu_cmd := [0xaa, _DEVICE] }

/-- Model of `self._commandPort.read(1)`: pops the next queued result, or times
out with the empty byte string when the queue is exhausted. -/
def portRead (s : MState) : List ℕ × MState :=
  match s.reads with
  | [] => ([], { s with readsAttempted := s.readsAttempted + 1 })
  | r :: rest =>
      (r, { s with reads := rest, readsAttempted := s.readsAttempted + 1 })

/-- Model of `Maestro.write` (lines 101-120): returns `False` without writing
when the port is closed or unwritable, else writes each message (an
`int` passes through `bytes`, byte strings go out verbatim) and
returns `True`.  The `TypeError` branch of line 117 is unreachable for
`Msg` arguments. -/
def write (data : List Msg) (s : MState) : Bool × MState :=
  if s.isOpen && s.writable then
    (true, { s with written := s.written ++ data.map msgBytes })
  else
    (false, s)

/-- Model of `Maestro.low_bits` (line 357): `value & 0x7F`. -/
def low_bits (value : ℕ) : ℕ := value &&& 0x7F

/-- Model of `Maestro.high_bits` (line 365): `(value >> 7) & 0x7F`. -/
def high_bits (value : ℕ) : ℕ := (value >>> 7) &&& 0x7F

/-- Python truthiness of an optional non-negative `int` default
argument: `None` and `0` are falsy, any other `int` is truthy. -/
def pyTruthy : Option ℕ → Bool
  | none => false
  | some n => n != 0

/-- Model of `Maestro.set_speed` (lines 187-201). -/
def set_speed (channel speed : ℕ) (s : MState) : Bool × MState :=
  write [.bytes [_SET_SPEED_CMD, channel, low_bits speed, high_bits speed]] s

/-- Model of `Maestro.set_acceleration` (lines 203-220). -/
def set_acceleration (channel acceleration : ℕ) (s : MState) : Bool × MState :=
  write [.bytes [_SET_ACCELERATION_CMD, channel, low_bits acceleration,
                 high_bits acceleration]] s

/-- Model of `Maestro.set_PWM` (lines 222-242). -/
def set_PWM (onTime period : ℕ) (s : MState) : Bool × MState :=
  write [.bytes [_SET_PWM_CMD, low_bits onTime, high_bits onTime,
                 low_bits period, high_bits period]] s

/-- Model of `Maestro.go_home` (lines 297-306): passes the bare `int` `0xA2` to
`write`, so `bytes(0xA2)` puts 162 zero bytes on the wire. -/
def go_home (s : MState) : Bool × MState :=
  write [.int _GO_HOME_CMD] s

/-- The device-init write of the constructor (line 77):
`self._commandPort.write(bytes(_INIT_CMD))`, i.e. 170 zero bytes. -/
def init_write (s : MState) : MState :=
  { s with written := s.written ++ [bytesOfInt _INIT_CMD] }

/-- Model of `Maestro.get_moving_state` (lines 273-290): `outStr` ALIASES the
class attribute `pololu_cmd`, so `outStr.append(0x13)` grows the
shared bytearray before each write; the write result is ignored and a
one-byte read is always attempted; an empty read yields `None`. -/
def get_moving_state (s : MState) : Option ℕ × MState :=
  let outStr := s.pololu_cmd ++ [0x13]
  let s1 := { s with pololu_cmd := outStr }
  let s2 := (write [.bytes outStr] s1).2
  let r := portRead s2
  match r.1 with
  | [] => (none, r.2)
  | b :: _ => (some b, r.2)

/-- Model of `Maestro.wait_until_at_target` (lines 292-295):
`while self.get_moving_state(): sleep(0.01)`.  The loop is given fuel;
`none` means the fuel was exhausted while the condition was still
truthy.  Python truthiness makes both `0` and `None` exit the loop. -/
def wait_until_at_target : ℕ → MState → Option MState
  | 0, _ => none
  | Nat.succ fuel, s =>
      let r := get_moving_state s
      if pyTruthy r.1 then wait_until_at_target fuel r.2 else some r.2

/-- The set-target frame of line 138:
`bytearray([0xaa, _DEVICE, 0x04, channel, low_bits(target), high_bits(target)])`. -/
def stFrame (channel target : ℕ) : List ℕ :=
  [0xaa, _DEVICE, 0x04, channel, low_bits target, high_bits target]

/-- Model of `Maestro.set_target` without the `wait` branch (lines 133-139 and
142): optional speed/acceleration frames first (skipped when the
argument is `None` or the falsy `0`), then the set-target frame. -/
def set_target_core (channel target : ℕ) (speed acceleration : Option ℕ)
    (s : MState) : Bool × MState :=
  let s1 := if pyTruthy speed then (set_speed channel (speed.getD 0) s).2 else s
  let s2 :=
    if pyTruthy acceleration then
      (set_acceleration channel (acceleration.getD 0) s1).2
    else s1
  write [.bytes (stFrame channel target)] s2

/-- Model of `Maestro.set_target` (lines 122-142), with fuel for the optional
wait loop; `none` only when `wait=True` and the loop spins past the
fuel.  The returned flag is the result of the set-target write. -/
def set_target (fuel : ℕ) (channel target : ℕ) (speed acceleration : Option ℕ)
    (wait : Bool) (s : MState) : Option (Bool × MState) :=
  let r := set_target_core channel target speed acceleration s
  if wait then (wait_until_at_target fuel r.2).map (fun s2 => (r.1, s2))
  else some r

/-- Model of `Maestro.set_multiple_targets` (lines 157-185): count outside
[2,4] logs and returns `False` before any write; otherwise one
`set_target` call per pair in argument order, and `True` is returned
unconditionally (the individual write results are discarded). -/
def set_multiple_targets (fuel : ℕ) (num_targets : ℤ)
    (channel1 target1 channel2 target2 channel3 target3 channel4 target4 : ℕ)
    (wait : Bool) (s : MState) : Option (Bool × MState) :=
  if num_targets < 2 ∨ 4 < num_targets then some (false, s)
  else
    let s1 := (set_target_core channel1 target1 none none s).2
    let s2 := (set_target_core channel2 target2 none none s1).2
    let s3 :=
      if 2 < num_targets then (set_target_core channel3 target3 none none s2).2
      else s2
    let s4 :=
      if 3 < num_targets then (set_target_core channel4 target4 none none s3).2
      else s3
    if wait then (wait_until_at_target fuel s4).map (fun s5 => (true, s5))
    else some (true, s4)

/-- A Python runtime exception escaping a driver method. -/
inductive PyErr where
  | typeError
deriving Repr, DecidableEq

/-- Python `ord` on a byte string: the single byte's value, or a
`TypeError` when the length is not exactly 1 (in particular on the
empty result of a timed-out read). -/
def pyOrd : List ℕ → Except PyErr ℕ
  | [b] => .ok b
  | _ => .error .typeError

/-- Model of `Maestro.get_position` (lines 244-271): write `[0x90, channel]`,
return `-1` if the write failed, else `ord` two one-byte reads and
return `lowbits + (highbits << 8)`.  A short read makes `ord` raise. -/
def get_position (channel : ℕ) (s : MState) : Except PyErr ℤ × MState :=
  let w := write [.bytes [_GET_POSITION_CMD, channel]] s
  if !w.1 then (.ok (-1), w.2)
  else
    let r1 := portRead w.2
    match pyOrd r1.1 with
    | .error e => (.error e, r1.2)
    | .ok lowbits =>
        let r2 := portRead r1.2
        match pyOrd r2.1 with
        | .error e => (.error e, r2.2)
        | .ok highbits => (.ok ((lowbits + (highbits <<< 8) : ℕ) : ℤ), r2.2)

/-- Model of `Maestro.get_errors` (lines 308-349): writes the bare `int` `0xA1`
(so 161 zero bytes go out), returns `False` (here `none`) if the write
failed, else `ord`s two one-byte reads and returns the pair. -/
def get_errors (s : MState) : Except PyErr (Option (ℕ × ℕ)) × MState :=
  let w := write [.int _GET_ERRORS_CMD] s
  if !w.1 then (.ok none, w.2)
  else
    let r1 := portRead w.2
    match pyOrd r1.1 with
    | .error e => (.error e, r1.2)
    | .ok lowbits =>
        let r2 := portRead r1.2
        match pyOrd r2.1 with
        | .error e => (.error e, r2.2)
        | .ok highbits => (.ok (some (lowbits, highbits)), r2.2)

/-- C6: for every integer v with 0 <= v <= 16383,
(high_bits(v) << 7) | low_bits(v) == v — the 7-bit packing
round-trips. -/
theorem low_high_bits_roundtrip (v : ℕ) (h : v ≤ 16383) :
    high_bits v <<< 7 ||| low_bits v = v := by
  have hvlt : v / 128 < 128 := by omega
  have h1 : low_bits v = v % 128 := by
    show v &&& 127 = v % 128
    have hm := Nat.and_pow_two_sub_one_eq_mod v 7
    norm_num at hm
    exact hm
  have h2 : high_bits v = v / 128 := by
    show (v >>> 7) &&& 127 = v / 128
    have hm := Nat.and_pow_two_sub_one_eq_mod (v >>> 7) 7
    norm_num at hm
    rw [hm, Nat.shiftRight_eq_div_pow]
    norm_num
    exact hvlt
  have hb : v % 128 < 2 ^ 7 := by
    norm_num
    omega
  calc high_bits v <<< 7 ||| low_bits v
      = 2 ^ 7 * (v / 128) ||| v % 128 := by
        rw [h1, h2, Nat.shiftLeft_eq, Nat.mul_comm]
    _ = 2 ^ 7 * (v / 128) + v % 128 := (Nat.mul_add_lt_is_or hb (v / 128)).symm
    _ = v := by norm_num; omega

/-- Witness for C6 at v = 6000. -/
theorem low_high_bits_roundtrip_witness :
    6000 ≤ 16383 ∧ high_bits 6000 <<< 7 ||| low_bits 6000 = 6000 :=
  ⟨by decide, low_high_bits_roundtrip 6000 (by decide)⟩

/-- C1 (counterexample): `set_target(0, 6000)` hands the transport the
six-byte Pololu-protocol frame `[0xAA, 0x0C, 0x04, 0, 0x70, 0x2E]`,
not the compact frame `[0x84, 0, 0x70, 0x2E]` the claim states; the
device-init write is `bytes(0xAA)`, i.e. 170 zero bytes, not the
single byte `0xAA`; `go_home` likewise writes `bytes(0xA2)`, 162 zero
bytes, not the single byte `0xA2`. -/
theorem set_target_init_frames_counterexample :
    set_target 0 0 6000 none none false (initState [])
        = some (true,
            { isOpen := true, writable := true,
              written := [[0xAA, 0x0C, 0x04, 0x00, 0x70, 0x2E]], reads := [],
              readsAttempted := 0, pololu_cmd := [0xAA, 0x0C] })
    ∧ [[(0xAA : ℕ), 0x0C, 0x04, 0x00, 0x70, 0x2E]] ≠ [[0x84, 0x00, 0x70, 0x2E]]
    ∧ (init_write (initState [])).written = [List.replicate 0xAA 0]
    ∧ List.replicate 0xAA (0 : ℕ) ≠ [0xAA]
    ∧ (go_home (initState [])).2.written = [List.replicate 0xA2 0]
    ∧ List.replicate 0xA2 (0 : ℕ) ≠ [0xA2] := by decide

/-- C1 (amended): on an open, writable port, `set_target(channel,
target)` writes exactly one frame, the Pololu-protocol frame
`[0xAA, 0x0C, 0x04, channel, low_bits(target), high_bits(target)]`;
the device-init write at open appends `bytes(0xAA)` = 170 zero bytes,
and `go_home` writes `bytes(0xA2)` = 162 zero bytes (the named
single-byte opcodes never reach the wire as such). -/
theorem command_frames (channel target : ℕ) (s : MState)
    (ho : s.isOpen = true) (hw : s.writable = true) :
    set_target 0 channel target none none false s
        = some (true, { s with written := s.written ++
            [[0xaa, _DEVICE, 0x04, channel, low_bits target, high_bits target]] })
    ∧ go_home s = (true, { s with written := s.written ++ [List.replicate 0xA2 0] })
    ∧ init_write s = { s with written := s.written ++ [List.replicate 0xAA 0] } := by
  refine ⟨?_, ?_, ?_⟩ <;>
    simp [set_target, set_target_core, stFrame, write, go_home, init_write,
          bytesOfInt, pyTruthy, msgBytes, ho, hw, _DEVICE, _GO_HOME_CMD, _INIT_CMD]

/-- Witness for C1 (amended) at channel 1, target 8000 on a fresh
open state. -/
theorem command_frames_witness :
    (initState []).isOpen = true ∧
    (set_target 0 1 8000 none none false (initState [])
        = some (true, { initState [] with written := (initState []).written ++
            [[0xaa, _DEVICE, 0x04, 1, low_bits 8000, high_bits 8000]] })
      ∧ go_home (initState [])
          = (true, { initState [] with written :=
              (initState []).written ++ [List.replicate 0xA2 0] })
      ∧ init_write (initState [])
          = { initState [] with written :=
              (initState []).written ++ [List.replicate 0xAA 0] }) :=
  ⟨rfl, command_frames 1 8000 (initState []) rfl rfl⟩

/-- C2 (code bug): `get_moving_state` aliases and mutates the shared
class-level `pololu_cmd` bytearray, so only the first call writes the
three-byte frame `[0xAA, 0x0C, 0x13]`; the second call on the same
instance writes the four-byte `[0xAA, 0x0C, 0x13, 0x13]`. -/
theorem pololu_cmd_frame_growth :
    ((get_moving_state (initState [[1], [1]])).2).written = [[0xAA, 0x0C, 0x13]]
    ∧ ((get_moving_state ((get_moving_state (initState [[1], [1]])).2)).2).written
        = [[0xAA, 0x0C, 0x13], [0xAA, 0x0C, 0x13, 0x13]]
    ∧ [(0xAA : ℕ), 0x0C, 0x13, 0x13] ≠ [0xAA, 0x0C, 0x13] := by decide

/-- C3 (counterexample): with response bytes `[0x05]` then `[0x10]`,
`get_position` returns `0x05 + (0x10 << 8) = 4101`, not the claimed
`0x05 + (0x10 << 7) = 2053`. -/
theorem get_position_counterexample :
    (get_position 0 (initState [[0x05], [0x10]])).1 = Except.ok 4101
    ∧ (Except.ok (4101 : ℤ) : Except PyErr ℤ) ≠ Except.ok 2053 :=
  ⟨rfl, by simp⟩

/-- C3 (amended): when the write succeeds and the transport returns
response bytes low then high, `get_position` returns
`low + (high << 8)`; in particular for `[0x05, 0x10]` it returns
4101. -/
theorem get_position_decodes (channel lo hi : ℕ) (rest : List (List ℕ))
    (s : MState) (ho : s.isOpen = true) (hw : s.writable = true)
    (hr : s.reads = [lo] :: [hi] :: rest) :
    (get_position channel s).1 = Except.ok ((lo + (hi <<< 8) : ℕ) : ℤ) := by
  simp [get_position, write, portRead, pyOrd, ho, hw, hr]

/-- Witness for C3 (amended) at the spec's concrete response bytes
`[0x05, 0x10]`: the result is `0x05 + (0x10 <<< 8)` = 4101. -/
theorem get_position_decodes_witness :
    (get_position 0 (initState [[0x05], [0x10]])).1
        = Except.ok ((0x05 + ((0x10 : ℕ) <<< 8) : ℕ) : ℤ) :=
  get_position_decodes 0 0x05 0x10 [] (initState [[0x05], [0x10]]) rfl rfl rfl

/-- An instance whose port is closed, so that every `write` fails;
one byte is queued so a stray read can be observed. -/
def closedState : MState :=
  { isOpen := false, writable := false, written := [], reads := [[1]],
    readsAttempted := 0, pololu_cmd := [0xaa, _DEVICE] }

/-- C5 (code bug): with a transport whose write always fails,
`set_multiple_targets` still returns `True` (its docstring promises
`False` when any write fails), and `get_moving_state` ignores the
write result and still issues a one-byte read from the transport,
returning whatever arrives instead of the documented `-1`.  By
contrast `get_position` does return its sentinel `-1` without
reading. -/
theorem write_failure_divergence :
    (write [] closedState).1 = false
    ∧ set_multiple_targets 0 2 0 6000 1 6000 0 0 0 0 false closedState
        = some (true, closedState)
    ∧ (get_moving_state closedState).2.readsAttempted = 1
    ∧ (get_moving_state closedState).1 = some 1
    ∧ (get_position 0 closedState).1 = Except.ok (-1)
    ∧ (get_position 0 closedState).2.readsAttempted = 0 := by
  refine ⟨rfl, rfl, rfl, rfl, rfl, rfl⟩

/-- C8: `set_multiple_targets` with a count outside [2, 4] performs no
transport writes at all and returns `False`; with a count in [2, 4]
it writes one set-target frame per (channel, target) pair, in
argument order. -/
theorem set_multiple_targets_spec (n : ℤ) (fuel : ℕ)
    (c1 t1 c2 t2 c3 t3 c4 t4 : ℕ) (s : MState)
    (ho : s.isOpen = true) (hw : s.writable = true) :
    ((n < 2 ∨ 4 < n) →
      set_multiple_targets fuel n c1 t1 c2 t2 c3 t3 c4 t4 false s
        = some (false, s))
    ∧ (2 ≤ n → n ≤ 4 →
      set_multiple_targets fuel n c1 t1 c2 t2 c3 t3 c4 t4 false s
        = some (true,
            { s with written := s.written ++ (List.take n.toNat
                [stFrame c1 t1, stFrame c2 t2, stFrame c3 t3, stFrame c4 t4]) })) := by
  constructor
  · intro hn
    simp only [set_multiple_targets]
    rw [if_pos hn]
  · intro h2 h4
    have hcase : n = 2 ∨ n = 3 ∨ n = 4 := by omega
    rcases hcase with h | h | h <;> subst h <;>
      simp [set_multiple_targets, set_target_core, write, pyTruthy,
            msgBytes, ho, hw]

/-- Witness for C8 with count 3 on a fresh open state. -/
theorem set_multiple_targets_spec_witness :
    (2 : ℤ) ≤ 3 ∧ (3 : ℤ) ≤ 4 ∧
    set_multiple_targets 0 3 0 6000 1 6000 2 7000 3 7000 false (initState [])
      = some (true,
          { initState [] with written := (initState []).written ++ (List.take
              (3 : ℤ).toNat
              [stFrame 0 6000, stFrame 1 6000, stFrame 2 7000, stFrame 3 7000]) }) :=
  ⟨by decide, by decide,
    (set_multiple_targets_spec 3 0 0 6000 1 6000 2 7000 3 7000 (initState [])
      rfl rfl).2 (by decide) (by decide)⟩

/-- C9: when the command write succeeds but the transport's response
read comes back empty, `ord` is applied to an empty byte string, so
`get_position` and `get_errors` escape with a `TypeError` instead of
returning their sentinel failure values (`-1` and `False`). -/
theorem short_read_raises (channel : ℕ) (s : MState)
    (ho : s.isOpen = true) (hw : s.writable = true) (hr : s.reads = []) :
    ((get_position channel s).1 = Except.error PyErr.typeError
      ∧ (get_position channel s).1 ≠ Except.ok (-1))
    ∧ ((get_errors s).1 = Except.error PyErr.typeError
      ∧ (get_errors s).1 ≠ Except.ok none) := by
  simp [get_position, get_errors, write, portRead, pyOrd, ho, hw, hr]

/-- Witness for C9 on a fresh open state with no queued response. -/
theorem short_read_raises_witness :
    ((get_position 0 (initState [])).1 = Except.error PyErr.typeError
      ∧ (get_position 0 (initState [])).1 ≠ Except.ok (-1))
    ∧ ((get_errors (initState [])).1 = Except.error PyErr.typeError
      ∧ (get_errors (initState [])).1 ≠ Except.ok none) :=
  short_read_raises 0 (initState []) rfl rfl rfl

/-- C10: in `set_target` a speed or acceleration argument of `0` is
falsy, exactly like the default `None`: no set-speed or
set-acceleration frame is written, only the set-target frame; a
nonzero value makes the corresponding frame go out immediately before
the set-target frame. -/
theorem zero_speed_accel_like_none (channel target sp : ℕ) (s : MState)
    (ho : s.isOpen = true) (hw : s.writable = true) :
    set_target 0 channel target (some 0) none false s
        = set_target 0 channel target none none false s
    ∧ set_target 0 channel target none (some 0) false s
        = set_target 0 channel target none none false s
    ∧ set_target 0 channel target none none false s
        = some (true, { s with written := s.written ++ [stFrame channel target] })
    ∧ (sp ≠ 0 →
        set_target 0 channel target (some sp) none false s
          = some (true, { s with written := s.written ++
              [[_SET_SPEED_CMD, channel, low_bits sp, high_bits sp],
               stFrame channel target] }))
    ∧ (sp ≠ 0 →
        set_target 0 channel target none (some sp) false s
          = some (true, { s with written := s.written ++
              [[_SET_ACCELERATION_CMD, channel, low_bits sp, high_bits sp],
               stFrame channel target] })) := by
  refine ⟨?_, ?_, ?_, fun hsp => ?_, fun hsp => ?_⟩ <;>
    simp_all [set_target, set_target_core, set_speed, set_acceleration, write,
              pyTruthy, msgBytes, ho, hw]

/-- Witness for C10 at channel 0, target 6000, speed 150. -/
theorem zero_speed_accel_like_none_witness :
    (150 : ℕ) ≠ 0 ∧
    (set_target 0 0 6000 (some 0) none false (initState [])
        = set_target 0 0 6000 none none false (initState [])
      ∧ set_target 0 0 6000 none (some 0) false (initState [])
        = set_target 0 0 6000 none none false (initState [])
      ∧ set_target 0 0 6000 none none false (initState [])
        = some (true, { initState [] with written :=
            (initState []).written ++ [stFrame 0 6000] })
      ∧ ((150 : ℕ) ≠ 0 →
          set_target 0 0 6000 (some 150) none false (initState [])
            = some (true, { initState [] with written :=
                (initState []).written ++
                  [[_SET_SPEED_CMD, 0, low_bits 150, high_bits 150],
                   stFrame 0 6000] }))
      ∧ ((150 : ℕ) ≠ 0 →
          set_target 0 0 6000 none (some 150) false (initState [])
            = some (true, { initState [] with written :=
                (initState []).written ++
                  [[_SET_ACCELERATION_CMD, 0, low_bits 150, high_bits 150],
                   stFrame 0 6000] }))) :=
  ⟨by decide, zero_speed_accel_like_none 0 6000 150 (initState []) rfl rfl⟩

/-- Helper: `write` never touches the read queue. -/
theorem write_reads (d : List Msg) (s : MState) : ((write d s).2).reads = s.reads := by
  unfold write
  split <;> rfl

/-- One `get_moving_state` poll whose read returns a byte `x`: the
result is `some x` and the rest of the read queue remains. -/
theorem gms_cons_head (s : MState) (x : ℕ) (b : List ℕ) (rest : List (List ℕ))
    (h : s.reads = (x :: b) :: rest) :
    (get_moving_state s).1 = some x ∧ (get_moving_state s).2.reads = rest := by
  cases ho : s.isOpen <;> cases hw : s.writable <;>
    simp [get_moving_state, write, portRead, h, ho, hw]

/-- One `get_moving_state` poll whose read times out (empty byte
string): the result is `none`. -/
theorem gms_empty_head (s : MState) (rest : List (List ℕ))
    (h : s.reads = [] :: rest) :
    (get_moving_state s).1 = none ∧ (get_moving_state s).2.reads = rest := by
  cases ho : s.isOpen <;> cases hw : s.writable <;>
    simp [get_moving_state, write, portRead, h, ho, hw]

/-- One truthy poll: with a nonzero moving state the loop body runs
again on the post-poll state. -/
theorem wait_step_truthy (fuel : ℕ) (s : MState) (x : ℕ)
    (hx : (get_moving_state s).1 = some x) (hxz : x ≠ 0) :
    wait_until_at_target (fuel + 1) s
      = wait_until_at_target fuel (get_moving_state s).2 := by
  have : pyTruthy (get_moving_state s).1 = true := by simp [hx, pyTruthy, hxz]
  simp only [wait_until_at_target, this, if_pos]

/-- C4 (counterexample): when the moving-state read comes back empty,
`get_moving_state` returns `None`, which is falsy in Python, so
`wait_until_at_target` exits after that single poll (fuel 1 suffices)
instead of continuing to loop as the claim states. -/
theorem wait_none_exits_counterexample :
    (get_moving_state (initState [[]])).1 = none
    ∧ (wait_until_at_target 1 (initState [[]])).isSome = true := by decide

/-- C4 (amended): `wait_until_at_target` keeps polling exactly while
`get_moving_state` returns a nonzero byte — with `k` nonzero reads
queued before a `0` read, fuel `k` is exhausted mid-loop but fuel
`k + 1` returns — and it also returns as soon as `get_moving_state`
yields `0` or `None` (an empty read is falsy and ends the loop, it is
not treated as still moving). -/
theorem wait_until_at_target_behavior (k : ℕ) (s t : MState)
    (hs : s.reads = List.replicate k [1] ++ [[0]])
    (ht : t.reads.head? = some []) :
    (wait_until_at_target k s = none
      ∧ (wait_until_at_target (k + 1) s).isSome = true)
    ∧ (wait_until_at_target 1 t).isSome = true := by
  constructor
  · induction k generalizing s with
    | zero =>
        obtain ⟨h1, _⟩ := gms_cons_head s 0 [] [] (by simpa using hs)
        exact ⟨rfl, by simp [wait_until_at_target, h1, pyTruthy]⟩
    | succ k ih =>
        have hs' : s.reads = [1] :: (List.replicate k [1] ++ [[0]]) := by
          simpa [List.replicate_succ] using hs
        obtain ⟨h1, h2⟩ := gms_cons_head s 1 [] _ hs'
        obtain ⟨ihn, ihs⟩ := ih _ h2
        constructor
        · rw [wait_step_truthy k s 1 h1 (by decide)]
          exact ihn
        · rw [wait_step_truthy (k + 1) s 1 h1 (by decide)]
          exact ihs
  · cases htr : t.reads with
    | nil => rw [htr] at ht; simp at ht
    | cons a rest =>
        rw [htr] at ht
        simp at ht
        subst ht
        obtain ⟨h1, _⟩ := gms_empty_head t rest htr
        simp [wait_until_at_target, h1, pyTruthy]

/-- Witness for C4 (amended): two nonzero moving-state reads followed
by a zero read, and a state whose first read is empty. -/
theorem wait_until_at_target_behavior_witness :
    (wait_until_at_target 2 (initState [[1], [1], [0]]) = none
      ∧ (wait_until_at_target 3 (initState [[1], [1], [0]])).isSome = true)
    ∧ (wait_until_at_target 1 (initState [[], [9]])).isSome = true :=
  wait_until_at_target_behavior 2 (initState [[1], [1], [0]])
    (initState [[], [9]]) rfl rfl

end Maestro
